import Mathlib

set_option maxRecDepth 100000

/-!
Verification of the retinktask text-summarizer service (`src/server.js`)
against its natural-language specification.

The service's core logic is embedded shallowly:
* `countWords` models `countWords` (server.js:57-59),
* `getSummaryLength` / `getToneInstruction` / `buildPrompt` model the prompt
  construction (server.js:62-79 and 120-125),
* `compressionRatioStr` models the `compressionRatio` response field
  (server.js:155) over rationals rounded to IEEE-754 binary64 after every
  operation, with JavaScript's special values (`NaN`, `±Infinity`) explicit,
* `validateSummarizeRequest` models the express-validator chain
  (server.js:38-54),
* `handleSummarizeError` models the catch block of the `/summarize` route
  (server.js:165-195),
* `summarizeRoute` models the whole `/summarize` handler (server.js:103-197),
  with the external Groq call abstracted as an oracle `gateway : String →
  GatewayResult`,
* `limiterStep` and `rateLimitMessage` model the rate-limit configuration
  (server.js:25-35); the windowing mechanics live in the third-party
  `express-rate-limit` package and are modelled from the spec.

JavaScript numbers are modelled by `JsNum`: the special values `NaN` and
`±Infinity` made explicit, and every finite value an exact rational kept on
the binary64 grid by `roundDouble` — IEEE-754 round-to-nearest-even at 53
significant bits — applied to the result of every arithmetic operation, as an
ECMAScript engine does.  Word counts are integers far below 2^53, so the
operands entering the pipeline are exact; each division and multiplication
result is rounded.
-/

/-- Models the ECMAScript whitespace class `\s` (and the characters removed by
`String.prototype.trim`): ASCII whitespace, NBSP, BOM and the line/paragraph
separators.  The rarely-used extra Unicode space separators (U+2000–U+200A,
U+1680, U+205F, U+3000) are omitted; no claim exercises them. -/
def isJsWhitespace (c : Char) : Bool :=
  c = ' ' || c = '\t' || c = '\n' || c = '\r' ||
  c = '\x0b' || c = '\x0c' || c = '\u00A0' || c = '\uFEFF' ||
  c = '\u2028' || c = '\u2029'

/-- Models `text.trim()`: drop leading and trailing whitespace. -/
def jsTrimL (l : List Char) : List Char :=
  ((l.dropWhile isJsWhitespace).reverse.dropWhile isJsWhitespace).reverse

/-- Models `String.prototype.trim` on strings. -/
def jsTrimStr (s : String) : String :=
  String.mk (jsTrimL s.data)

/-- Models `str.split(/\s+/)`: split at each maximal run of whitespace
characters.  `cur` is the (reversed) chunk being accumulated; `prevWs` records
whether the previous character was whitespace, so that a further whitespace
character extends the same separator run instead of emitting an empty chunk.
As in JavaScript, a leading or trailing whitespace run produces an empty
chunk, and `"".split` produces `[""]`. -/
def splitWsAux (cur : List Char) (prevWs : Bool) : List Char → List (List Char)
  | [] => [cur.reverse]
  | c :: cs =>
    if isJsWhitespace c then
      if prevWs then splitWsAux [] true cs
      else cur.reverse :: splitWsAux [] true cs
    else splitWsAux (c :: cur) false cs

/-- `str.split(/\s+/)` on a list of characters. -/
def splitWs (l : List Char) : List (List Char) :=
  splitWsAux [] false l

/-- Models `countWords` (server.js:57-59):
`text.trim().split(/\s+/).filter(word => word.length > 0).length`,
on a list of characters. -/
def countWordsList (l : List Char) : Nat :=
  ((splitWs (jsTrimL l)).filter (fun w => decide (0 < w.length))).length

/-- Models `countWords` (server.js:57-59) on strings. -/
def countWords (text : String) : Nat :=
  countWordsList text.data

/-- Models `getSummaryLength` (server.js:62-68); the JavaScript `switch` with
`return` in every case is a sequential comparison, translated as an
if-chain. -/
def getSummaryLength (length : String) : String :=
  if length = "short" then "1-2 sentences"
  else if length = "long" then "4-6 sentences"
  else "2-4 sentences"

/-- Models `getToneInstruction` (server.js:71-79). -/
def getToneInstruction (tone : String) : String :=
  if tone = "professional" then "Use a professional and formal tone."
  else if tone = "casual" then "Use a casual and conversational tone."
  else if tone = "academic" then "Use an academic and scholarly tone."
  else if tone = "creative" then "Use a creative and engaging tone."
  else ""

/-- Models the template literal building `prompt` (server.js:123-125).  Note
the source text reads "Focus on the key points and main ideas:". -/
def buildPrompt (text tone length : String) : String :=
  "Summarize this content in " ++ getSummaryLength length ++ ". " ++
    getToneInstruction tone ++ " Focus on the key points and main ideas:\n\n" ++ text

/-- The prompt exactly as claim C2 (and spec §4.3) words it, with the literal
segment "Focus on key points and main ideas:" and the claim's own description
of the length and tone mappings. -/
def claimedPrompt (text tone length : String) : String :=
  "Summarize this content in " ++
    (if length = "short" then "1-2 sentences"
     else if length = "long" then "4-6 sentences"
     else "2-4 sentences") ++ ". " ++
    (if tone = "professional" then "Use a professional and formal tone."
     else if tone = "casual" then "Use a casual and conversational tone."
     else if tone = "academic" then "Use an academic and scholarly tone."
     else if tone = "creative" then "Use a creative and engaging tone."
     else "") ++
    " Focus on key points and main ideas:\n\n" ++ text

/-- Claim C2 amended: identical to `claimedPrompt` except that the fixed
instruction segment reads "Focus on the key points and main ideas:", as the
source template literal does. -/
def amendedPrompt (text tone length : String) : String :=
  "Summarize this content in " ++
    (if length = "short" then "1-2 sentences"
     else if length = "long" then "4-6 sentences"
     else "2-4 sentences") ++ ". " ++
    (if tone = "professional" then "Use a professional and formal tone."
     else if tone = "casual" then "Use a casual and conversational tone."
     else if tone = "academic" then "Use an academic and scholarly tone."
     else if tone = "creative" then "Use a creative and engaging tone."
     else "") ++
    " Focus on the key points and main ideas:\n\n" ++ text

/-- Models `s.includes(pat)` (substring containment). -/
def containsSubstr (s pat : String) : Bool :=
  decide (pat.data <:+: s.data)

/-- A JavaScript number: an exact rational, or one of the special values
`NaN`, `Infinity`, `-Infinity`.  Signed zero is collapsed to `0`; it is
indistinguishable in every expression the source evaluates. -/
inductive JsNum where
  | fin (q : ℚ)
  | nan
  | posInf
  | negInf
deriving DecidableEq

/-- Round half to even: the integer nearest to `x`, the even one at an exact
half-integer tie (the IEEE-754 default rounding direction). -/
def rhe (x : ℚ) : ℤ :=
  if x - ⌊x⌋ < 1 / 2 then ⌊x⌋
  else if 1 / 2 < x - ⌊x⌋ then ⌊x⌋ + 1
  else if 2 ∣ ⌊x⌋ then ⌊x⌋ else ⌊x⌋ + 1

/-- Round an exact rational to the nearest IEEE-754 binary64 value (as the
exact rational it denotes): scale the binade found by `Int.log 2` to 53
significant bits and round half to even.  Subnormals and overflow are not
modelled — ratios of word counts stay far inside the normal range.  When a
tie-up lands on `2^53`, `m * 2^(e-52)` still denotes the correct double,
`2^52 * 2^(e-51)`. -/
def roundDouble (q : ℚ) : ℚ :=
  if q = 0 then 0
  else (rhe (q / 2 ^ (Int.log 2 |q| - 52)) : ℚ) * 2 ^ (Int.log 2 |q| - 52)

/-- JavaScript subtraction: exact difference, rounded to binary64. -/
def jsSub : JsNum → JsNum → JsNum
  | .nan, _ => .nan
  | _, .nan => .nan
  | .fin a, .fin b => .fin (roundDouble (a - b))
  | .posInf, .negInf => .posInf
  | .posInf, .fin _ => .posInf
  | .fin _, .negInf => .posInf
  | .negInf, .posInf => .negInf
  | .negInf, .fin _ => .negInf
  | .fin _, .posInf => .negInf
  | .posInf, .posInf => .nan
  | .negInf, .negInf => .nan

/-- JavaScript division.  Division of a nonzero finite number by zero gives a
signed infinity, `0 / 0` gives `NaN`; a finite quotient is rounded to
binary64. -/
def jsDiv : JsNum → JsNum → JsNum
  | .nan, _ => .nan
  | _, .nan => .nan
  | .fin a, .fin b =>
    if b = 0 then
      if a = 0 then .nan else if 0 < a then .posInf else .negInf
    else .fin (roundDouble (a / b))
  | .posInf, .posInf => .nan
  | .posInf, .negInf => .nan
  | .negInf, .posInf => .nan
  | .negInf, .negInf => .nan
  | .posInf, .fin b => if 0 ≤ b then .posInf else .negInf
  | .negInf, .fin b => if 0 ≤ b then .negInf else .posInf
  | .fin _, .posInf => .fin 0
  | .fin _, .negInf => .fin 0

/-- JavaScript multiplication; a finite product is rounded to binary64. -/
def jsMul : JsNum → JsNum → JsNum
  | .nan, _ => .nan
  | _, .nan => .nan
  | .fin a, .fin b => .fin (roundDouble (a * b))
  | .posInf, .fin b => if b = 0 then .nan else if 0 < b then .posInf else .negInf
  | .negInf, .fin b => if b = 0 then .nan else if 0 < b then .negInf else .posInf
  | .fin a, .posInf => if a = 0 then .nan else if 0 < a then .posInf else .negInf
  | .fin a, .negInf => if a = 0 then .nan else if 0 < a then .negInf else .posInf
  | .posInf, .posInf => .posInf
  | .posInf, .negInf => .negInf
  | .negInf, .posInf => .negInf
  | .negInf, .negInf => .posInf

/-- `x.toFixed(1)` for a nonnegative rational: the integer `n` closest to
`x * 10` (larger `n` at a tie, per ECMA-262), printed as `n/10 "." n%10`. -/
def fixed1Nonneg (q : ℚ) : String :=
  toString ((⌊q * 10 + 1 / 2⌋).toNat / 10) ++ "." ++
    toString ((⌊q * 10 + 1 / 2⌋).toNat % 10)

/-- `x.toFixed(1)` for a finite rational: a negative argument is printed as
`"-"` followed by `toFixed` of its negation (ECMA-262). -/
def fixed1 (q : ℚ) : String :=
  if q < 0 then "-" ++ fixed1Nonneg (-q) else fixed1Nonneg q

/-- `Number.prototype.toFixed(1)` on a JavaScript number.  (The ECMA branch
for magnitudes ≥ 10^21 never applies to the ratios of word counts computed
here.) -/
def jsToFixed1 : JsNum → String
  | .fin q => fixed1 q
  | .nan => "NaN"
  | .posInf => "Infinity"
  | .negInf => "-Infinity"

/-- Models the `compressionRatio` response field (server.js:155):
`((originalWordCount - summaryWordCount) / originalWordCount * 100).toFixed(1) + '%'`,
each operation in binary64.  The word-count operands (and the constant 100)
are integers below `2^53`, hence exact doubles. -/
def compressionRatioStr (o s : Nat) : String :=
  jsToFixed1 (jsMul (jsDiv (jsSub (.fin (o : ℚ)) (.fin (s : ℚ)))
    (.fin (o : ℚ))) (.fin 100)) ++ "%"

/-- The compression-ratio string exactly as spec §8 / claim C4 word it, with
the formula read in exact arithmetic: `((original − summary)/original × 100)`
formatted to one decimal place with a trailing `%` (meaningful when
`original > 0`). -/
def specRatioStr (o s : Nat) : String :=
  fixed1 (((o : ℚ) - (s : ℚ)) / (o : ℚ) * 100) ++ "%"

/-- Claim C4 amended, spec side: the formula `((original − summary)/original
× 100)` evaluated in IEEE-754 double precision — every operation rounded to
binary64 — then formatted to one decimal place with a trailing `%`. -/
def specRatioDoubleStr (o s : Nat) : String :=
  fixed1 (roundDouble (roundDouble (roundDouble ((o : ℚ) - (s : ℚ)) / (o : ℚ)) * 100)) ++ "%"

/-- The value of one field of the request body.  A JSON value that is not a
string is collapsed to `nonString`: the validator rejects it without looking
further at it. -/
inductive BodyVal where
  | missing
  | str (s : String)
  | nonString
deriving DecidableEq

/-- The `/summarize` request body `{ text, tone?, length? }`.  `tone` and
`length` are either absent or string-valued. -/
structure SummarizeRequest where
  text : BodyVal
  tone : Option String
  length : Option String
deriving DecidableEq

/-- One entry of the `details` array of a 400 response: the offending field
and the `withMessage` text of the violated rule. -/
structure FieldError where
  path : String
  msg : String
deriving DecidableEq

/-- The `body('text')` chain (server.js:39-45): `isString`, then
`isLength({min:200})`, then `isLength({max:10000})`.  For a value that is not
a string the chain reports the `isString` violation (the claims depend only on
the error list being nonempty in that case). -/
def textFieldErrors : BodyVal → List FieldError
  | .str s =>
    (if s.length < 200 then [⟨"text", "Text must be at least 200 characters long"⟩] else []) ++
    (if s.length > 10000 then [⟨"text", "Text must not exceed 10,000 characters"⟩] else [])
  | _ => [⟨"text", "Text must be a string"⟩]

/-- The `body('tone')` chain (server.js:46-49): optional, `isIn` the four
tones. -/
def toneFieldErrors : Option String → List FieldError
  | none => []
  | some t =>
    if t = "professional" ∨ t = "casual" ∨ t = "academic" ∨ t = "creative" then []
    else [⟨"tone", "Tone must be one of: professional, casual, academic, creative"⟩]

/-- The `body('length')` chain (server.js:50-53): optional, `isIn` the three
lengths. -/
def lengthFieldErrors : Option String → List FieldError
  | none => []
  | some l =>
    if l = "short" ∨ l = "medium" ∨ l = "long" then []
    else [⟨"length", "Length must be one of: short, medium, long"⟩]

/-- Models `validationResult(req)` for the `validateSummarizeRequest`
middleware chain (server.js:38-54): the concatenated field errors, in chain
order. -/
def validateSummarizeRequest (req : SummarizeRequest) : List FieldError :=
  textFieldErrors req.text ++ toneFieldErrors req.tone ++ lengthFieldErrors req.length

/-- The error object thrown by the Groq SDK, as far as the catch block
inspects it: an optional HTTP status and an optional message. -/
structure ProviderError where
  status : Option Nat
  message : Option String
deriving DecidableEq

/-- The outcome of the external Groq call: the content string of the first
choice, or a thrown error. -/
inductive GatewayResult where
  | ok (content : String)
  | err (e : ProviderError)

/-- An error response assembled by the catch block: HTTP status, `error`
field, `message` field, and the optional `details` field. -/
structure ErrorResponse where
  status : Nat
  error : String
  message : String
  details : Option String
deriving DecidableEq

/-- Models the catch block of the `/summarize` route (server.js:165-195): the
provider error is classified by `status === 429`, then `status === 401`, then
`message.includes('context_length')`, then the generic branch.  `devMode`
models `process.env.NODE_ENV === 'development'`. -/
def handleSummarizeError (e : ProviderError) (devMode : Bool) : ErrorResponse :=
  if e.status = some 429 then
    ⟨503, "Service temporarily unavailable due to rate limits", "Please try again later", none⟩
  else if e.status = some 401 then
    ⟨500, "Configuration error", "API key is invalid or missing", none⟩
  else if (match e.message with
           | some m => containsSubstr m "context_length"
           | none => false) then
    ⟨400, "Text too long", "The provided text exceeds the maximum allowed length", none⟩
  else
    ⟨500, "Internal server error", "Failed to generate summary. Please try again.",
      if devMode then e.message else none⟩

/-- The `data` object of a successful `/summarize` response
(server.js:150-161). -/
structure SummaryData where
  originalText : String
  summary : String
  originalWordCount : Nat
  summaryWordCount : Nat
  compressionRatioStr : String
  settingsTone : String
  settingsLength : String
  model : String
deriving DecidableEq

/-- The body of a `/summarize` response: a 400 validation failure, a success
payload, or a classified failure. -/
inductive SummarizeBody where
  | validationFailed (details : List FieldError)
  | success (data : SummaryData)
  | failure (error : String) (message : String) (details : Option String)
deriving DecidableEq

/-- A `/summarize` response together with whether the external gateway was
called while producing it. -/
structure SummarizeResponse where
  status : Nat
  body : SummarizeBody
  gatewayCalled : Bool
deriving DecidableEq

/-- The string value of the `text` field once validation has passed (the
validator guarantees the `str` case). -/
def bodyText : BodyVal → String
  | .str s => s
  | _ => ""

/-- Models the `/summarize` handler (server.js:103-197).  Control flow as in
the source: on validation errors, return 400 with the error array before any
external call; otherwise apply the destructuring defaults
`tone = 'professional'`, `length = 'medium'`, build the prompt, call the
gateway, and either assemble the success payload (trimming the returned
content, server.js:144) or map the thrown error through the catch block. -/
def summarizeRoute (req : SummarizeRequest) (gateway : String → GatewayResult)
    (devMode : Bool) : SummarizeResponse :=
  let errs := validateSummarizeRequest req
  if errs.isEmpty then
    let text := bodyText req.text
    let tone := req.tone.getD "professional"
    let length := req.length.getD "medium"
    let originalWordCount := countWords text
    let prompt := buildPrompt text tone length
    match gateway prompt with
    | .ok content =>
      let summary := jsTrimStr content
      let summaryWordCount := countWords summary
      ⟨200, .success ⟨text, summary, originalWordCount, summaryWordCount,
        compressionRatioStr originalWordCount summaryWordCount, tone, length,
        "llama-3.3-70b-versatile"⟩, true⟩
    | .err e =>
      let r := handleSummarizeError e devMode
      ⟨r.status, .failure r.error r.message r.details, true⟩
  else
    ⟨400, .validationFailed errs, false⟩

/-- The `compressionRatio` field of a success response, if any. -/
def responseRatioStr : SummarizeResponse → Option String
  | ⟨_, .success d, _⟩ => some d.compressionRatioStr
  | _ => none

/-- The rate-limiter configuration (server.js:26-27): `windowMs` (default
`15 * 60 * 1000`) and `max` requests per window (default `100`). -/
structure LimiterConfig where
  windowMs : Nat
  maxReq : Nat
deriving DecidableEq

/-- The default window: 15 minutes in milliseconds. -/
def defaultWindowMs : Nat := 15 * 60 * 1000

/-- The default per-window maximum request count. -/
def defaultMaxRequests : Nat := 100

/-- The `retryAfter` value placed in the limiter's rejection message
(server.js:30): `Math.ceil(windowMs / 1000)`, computed once from the
configuration. -/
def limiterRetryAfter (windowMs : Nat) : Nat :=
  (windowMs + 999) / 1000

/-- The structured denial a rejected caller receives: HTTP status, `error`
text and `retryAfter` hint. -/
structure RateLimitDenial where
  status : Nat
  error : String
  retryAfter : Nat
deriving DecidableEq

/-- The rejection response configured at server.js:28-31, served with the 429
status the middleware uses for rejections. -/
def rateLimitMessage (cfg : LimiterConfig) : RateLimitDenial :=
  ⟨429, "Too many requests from this IP, please try again later.",
    limiterRetryAfter cfg.windowMs⟩

/-- The per-client window state: when the current window began (ms) and how
many requests it has seen. -/
structure LimiterState where
  windowStart : Nat
  count : Nat
deriving DecidableEq

/-- Modelled from the spec: the fixed-window admission check of the
`express-rate-limit` middleware, which is a third-party package and not part
of this repository (spec §4.5: "admits or rejects a request based on a
sliding/fixed window count keyed by client network address").  A request at
time `now` (ms) starts a fresh window if the previous one has elapsed,
increments the counter, and is admitted iff the count stays within `maxReq`.
Returns the new state and the admission flag. -/
def limiterStep (cfg : LimiterConfig) (st : LimiterState) (now : Nat) :
    LimiterState × Bool :=
  let st1 := if st.windowStart + cfg.windowMs ≤ now then ⟨now, 0⟩ else st
  let st2 : LimiterState := ⟨st1.windowStart, st1.count + 1⟩
  (st2, decide (st2.count ≤ cfg.maxReq))

/-- The remaining duration of the current window, in milliseconds. -/
def remainingWindowMs (cfg : LimiterConfig) (st : LimiterState) (now : Nat) : Nat :=
  st.windowStart + cfg.windowMs - now

/-- Run the limiter over a list of request times, keeping only the state. -/
def limiterRun (cfg : LimiterConfig) (init : LimiterState) (times : List Nat) :
    LimiterState :=
  times.foldl (fun st t => (limiterStep cfg st t).1) init

/-- Spec-side characterization of `countWords` for claim C8: the number of
maximal whitespace-free runs of the character list.  `inWord` records whether
the previous character belonged to a run already counted. -/
def wordRunsAux (inWord : Bool) : List Char → Nat
  | [] => 0
  | c :: cs =>
    if isJsWhitespace c then wordRunsAux false cs
    else (if inWord then 0 else 1) + wordRunsAux true cs

/-- The number of maximal whitespace-free runs. -/
def wordRuns (l : List Char) : Nat :=
  wordRunsAux false l

/-- A fixed valid request text: 200 copies of `a`. -/
def validText200 : String :=
  String.mk (List.replicate 200 'a')

/-- A request text of 200 space characters: it satisfies the 200-character
minimum yet contains zero words. -/
def spacesText200 : String :=
  String.mk (List.replicate 200 ' ')

/-- The filtered chunk count produced by `splitWsAux` equals the number of
whitespace-free runs still ahead, plus one for a nonempty chunk in progress.
The two conjuncts cover the two reachable argument shapes of the
accumulator. -/
theorem splitWsAux_filter_length (l : List Char) :
    (∀ cur : List Char,
      ((splitWsAux cur false l).filter (fun w => decide (0 < w.length))).length
        = (if cur.isEmpty then 0 else 1) + wordRunsAux (!cur.isEmpty) l) ∧
    ((splitWsAux [] true l).filter (fun w => decide (0 < w.length))).length
        = wordRunsAux false l := by
  induction l with
  | nil =>
    constructor
    · intro cur
      cases cur <;> simp [splitWsAux, wordRunsAux]
    · simp [splitWsAux, wordRunsAux]
  | cons c cs ih =>
    by_cases hc : isJsWhitespace c
    · constructor
      · intro cur
        cases cur <;>
          · simp [splitWsAux, wordRunsAux, hc, ih.2]
            try omega
      · simp [splitWsAux, wordRunsAux, hc, ih.2]
    · constructor
      · intro cur
        have h1 := ih.1 (c :: cur)
        cases cur <;>
          · simp [splitWsAux, wordRunsAux, hc] at h1 ⊢
            omega
      · have h1 := ih.1 [c]
        simp [splitWsAux, wordRunsAux, hc] at h1 ⊢
        omega

/-- `countWordsList` counts the whitespace-free runs of the trimmed list. -/
theorem countWordsList_eq_wordRuns_trim (l : List Char) :
    countWordsList l = wordRuns (jsTrimL l) := by
  have h := (splitWsAux_filter_length (jsTrimL l)).1 []
  simpa [countWordsList, splitWs, wordRuns] using h

/-- A list of whitespace characters contains no word run. -/
theorem wordRunsAux_allWs (t : List Char) (b : Bool)
    (h : ∀ c ∈ t, isJsWhitespace c = true) : wordRunsAux b t = 0 := by
  induction t generalizing b with
  | nil => rfl
  | cons c cs ih =>
    have hc := h c (List.mem_cons_self c cs)
    simp [wordRunsAux, hc]
    exact ih false fun x hx => h x (List.mem_cons_of_mem c hx)

/-- Appending trailing whitespace does not change the run count. -/
theorem wordRunsAux_append_allWs (x t : List Char) (b : Bool)
    (h : ∀ c ∈ t, isJsWhitespace c = true) :
    wordRunsAux b (x ++ t) = wordRunsAux b x := by
  induction x generalizing b with
  | nil => simpa [wordRunsAux] using wordRunsAux_allWs t b h
  | cons c cs ih =>
    by_cases hc : isJsWhitespace c <;> simp [wordRunsAux, hc, ih]

/-- Dropping leading whitespace does not change the run count. -/
theorem wordRuns_dropWhile (l : List Char) :
    wordRuns (l.dropWhile isJsWhitespace) = wordRuns l := by
  induction l with
  | nil => rfl
  | cons c cs ih =>
    by_cases hc : isJsWhitespace c <;> simp [wordRuns, wordRunsAux, List.dropWhile, hc] at ih ⊢
    exact ih

/-- Trimming does not change the run count. -/
theorem wordRuns_trim (l : List Char) : wordRuns (jsTrimL l) = wordRuns l := by
  unfold jsTrimL
  set m := l.dropWhile isJsWhitespace with hm
  have hsplit : m = (m.reverse.dropWhile isJsWhitespace).reverse ++
      (m.reverse.takeWhile isJsWhitespace).reverse := by
    conv_lhs => rw [← m.reverse_reverse,
      ← List.takeWhile_append_dropWhile isJsWhitespace m.reverse]
    rw [List.reverse_append]
  have hws : ∀ c ∈ (m.reverse.takeWhile isJsWhitespace).reverse,
      isJsWhitespace c = true := by
    intro c hcmem
    exact List.mem_takeWhile_imp (List.mem_reverse.mp hcmem)
  calc wordRuns (m.reverse.dropWhile isJsWhitespace).reverse
      = wordRunsAux false ((m.reverse.dropWhile isJsWhitespace).reverse ++
          (m.reverse.takeWhile isJsWhitespace).reverse) :=
        (wordRunsAux_append_allWs _ _ false hws).symm
    _ = wordRuns m := by rw [← hsplit]; rfl
    _ = wordRuns l := wordRuns_dropWhile l

/-- `countWordsList` is exactly the number of maximal whitespace-free runs. -/
theorem countWordsList_eq_wordRuns (l : List Char) :
    countWordsList l = wordRuns l :=
  (countWordsList_eq_wordRuns_trim l).trans (wordRuns_trim l)

/-- Inserting a duplicate whitespace character next to an existing one does
not change the run count. -/
theorem wordRunsAux_dup (u v : List Char) (c : Char) (b : Bool)
    (hc : isJsWhitespace c = true) :
    wordRunsAux b (u ++ c :: c :: v) = wordRunsAux b (u ++ c :: v) := by
  induction u generalizing b with
  | nil => simp [wordRunsAux, hc]
  | cons a u ih =>
    by_cases ha : isJsWhitespace a <;> simp [wordRunsAux, ha, ih]

/-- C8: `countWords` splits its input on runs of whitespace, discards empty
tokens and counts the remainder — it equals the number of maximal
whitespace-free runs — so extra whitespace inserted beside existing
whitespace never changes the count, and `countWords "a  b\tc" = 3`,
`countWords "" = 0`, `countWords "   " = 0`. -/
theorem c8_countWords_runs :
    (∀ s : String, countWords s = wordRuns s.data) ∧
    (∀ (u v : List Char) (c : Char), isJsWhitespace c = true →
      countWordsList (u ++ c :: c :: v) = countWordsList (u ++ c :: v)) ∧
    countWords "a  b\tc" = 3 ∧ countWords "" = 0 ∧ countWords "   " = 0 := by
  refine ⟨fun s => countWordsList_eq_wordRuns s.data,
    fun u v c hc => ?_, by decide, by decide, by decide⟩
  rw [countWordsList_eq_wordRuns, countWordsList_eq_wordRuns]
  exact wordRunsAux_dup u v c false hc

/-- Witness for C8 at a concrete input: doubling the blank between `a` and
`b` leaves the count unchanged. -/
theorem c8_countWords_runs_witness :
    countWordsList (['a'] ++ ' ' :: ' ' :: ['b']) =
      countWordsList (['a'] ++ ' ' :: ['b']) :=
  c8_countWords_runs.2.1 ['a'] ['b'] ' ' (by decide)

/-- C2 counterexample: the built prompt is not the string the claim fixes —
the source writes "Focus on the key points and main ideas:", not
"Focus on key points and main ideas:", and the claimed segment occurs nowhere
in the built prompt. -/
theorem c2_prompt_counterexample :
    buildPrompt "X" "professional" "short" ≠
      claimedPrompt "X" "professional" "short" ∧
    containsSubstr (buildPrompt "X" "professional" "short")
      "Focus on key points and main ideas:" = false := by
  constructor
  · decide
  · decide

/-- C2 amended: the built prompt is exactly the fixed instruction
"Summarize this content in <N> sentences. <tone clause> Focus on the key
points and main ideas:" followed by a blank line and the source text, with
length mapping short→"1-2 sentences", long→"4-6 sentences", and medium or any
unrecognized value→"2-4 sentences", and tone mapping each of professional,
casual, academic, creative to its fixed descriptive sentence and any other
value to the empty clause. -/
theorem c2_prompt_amended (text tone length : String) :
    buildPrompt text tone length = amendedPrompt text tone length := rfl

/-- Uniqueness of the binary logarithm: if `2^z ≤ r < 2^(z+1)` then
`Int.log 2 r = z`. -/
theorem int_log2_eq {r : ℚ} {z : ℤ} (hr : 0 < r)
    (h1 : (2 : ℚ) ^ z ≤ r) (h2 : r < (2 : ℚ) ^ (z + 1)) :
    Int.log 2 r = z := by
  have hb : (1 : ℕ) < 2 := by norm_num
  have hc : ((2 : ℕ) : ℚ) = (2 : ℚ) := by norm_num
  have hle : z ≤ Int.log 2 r := by
    rw [← Int.zpow_le_iff_le_log hb hr, hc]
    exact h1
  have hlt : Int.log 2 r < z + 1 := by
    rw [← Int.lt_zpow_iff_log_lt hb hr, hc]
    exact h2
  omega

/-- `rhe` at a point whose fractional part is below one half. -/
theorem rhe_eq_of_lt {x : ℚ} {m : ℤ} (hf : ⌊x⌋ = m) (h : x - (m : ℚ) < 1 / 2) :
    rhe x = m := by
  unfold rhe
  rw [hf, if_pos h]

/-- `rhe` at a point whose fractional part is above one half. -/
theorem rhe_eq_of_gt {x : ℚ} {m : ℤ} (hf : ⌊x⌋ = m) (h : (1 : ℚ) / 2 < x - m) :
    rhe x = m + 1 := by
  unfold rhe
  rw [hf, if_neg (by linarith), if_pos h]

/-- Evaluate `roundDouble` when the scaled significand rounds down. -/
theorem roundDouble_eq_of_lt {q : ℚ} {z m : ℤ} (hq : q ≠ 0)
    (hlog : Int.log 2 |q| = z) (hfloor : ⌊q / 2 ^ (z - 52)⌋ = m)
    (hfrac : q / 2 ^ (z - 52) - (m : ℚ) < 1 / 2) :
    roundDouble q = (m : ℚ) * 2 ^ (z - 52) := by
  unfold roundDouble
  rw [if_neg hq, hlog, rhe_eq_of_lt hfloor hfrac]

/-- Evaluate `roundDouble` when the scaled significand rounds up. -/
theorem roundDouble_eq_of_gt {q : ℚ} {z m : ℤ} (hq : q ≠ 0)
    (hlog : Int.log 2 |q| = z) (hfloor : ⌊q / 2 ^ (z - 52)⌋ = m)
    (hfrac : (1 : ℚ) / 2 < q / 2 ^ (z - 52) - m) :
    roundDouble q = ((m + 1 : ℤ) : ℚ) * 2 ^ (z - 52) := by
  unfold roundDouble
  rw [if_neg hq, hlog, rhe_eq_of_gt hfloor hfrac]

/-- Zero is an exact double. -/
theorem roundDouble_zero : roundDouble 0 = 0 := by
  simp [roundDouble]

/-- `-3` is an exact double. -/
theorem roundDouble_neg3 : roundDouble (-3 : ℚ) = -3 := by
  have h := roundDouble_eq_of_lt (q := (-3 : ℚ)) (z := 1) (m := -6755399441055744)
    (by norm_num)
    (by
      rw [show |(-3 : ℚ)| = 3 from by norm_num]
      exact int_log2_eq (by norm_num) (by norm_num) (by norm_num))
    (by norm_num [Int.floor_eq_iff])
    (by norm_num)
  rw [h]
  norm_num

/-- `23` is an exact double. -/
theorem roundDouble_int_23 : roundDouble (23 : ℚ) = 23 := by
  have h := roundDouble_eq_of_lt (q := (23 : ℚ)) (z := 4) (m := 6473924464345088)
    (by norm_num)
    (by
      rw [show |(23 : ℚ)| = 23 from by norm_num]
      exact int_log2_eq (by norm_num) (by norm_num) (by norm_num))
    (by norm_num [Int.floor_eq_iff])
    (by norm_num)
  rw [h]
  norm_num

/-- `125` is an exact double. -/
theorem roundDouble_int_125 : roundDouble (125 : ℚ) = 125 := by
  have h := roundDouble_eq_of_lt (q := (125 : ℚ)) (z := 6) (m := 8796093022208000)
    (by norm_num)
    (by
      rw [show |(125 : ℚ)| = 125 from by norm_num]
      exact int_log2_eq (by norm_num) (by norm_num) (by norm_num))
    (by norm_num [Int.floor_eq_iff])
    (by norm_num)
  rw [h]
  norm_num

/-- The double nearest `23/80 = 0.2875` lies just below it: the scaled
significand `23·2^54/80` has fractional part `2/5`, so it rounds down. -/
theorem roundDouble_div_23_80 :
    roundDouble ((23 : ℚ) / 80) = 2589569785738035 / 9007199254740992 := by
  have h := roundDouble_eq_of_lt (q := (23 : ℚ) / 80) (z := -2) (m := 5179139571476070)
    (by norm_num)
    (by
      rw [show |(23 : ℚ) / 80| = 23 / 80 from by norm_num]
      exact int_log2_eq (by norm_num) (by norm_num) (by norm_num))
    (by norm_num [Int.floor_eq_iff])
    (by norm_num)
  rw [h]
  norm_num

/-- `double(0.2875) * 100` rounds to the double `28.749999999999996…`, which
is strictly below the exact tie `28.75`. -/
theorem roundDouble_mul_23_80 :
    roundDouble ((64739244643450875 : ℚ) / 2251799813685248) =
      8092405580431359 / 281474976710656 := by
  have h := roundDouble_eq_of_lt
    (q := (64739244643450875 : ℚ) / 2251799813685248)
    (z := 4) (m := 8092405580431359)
    (by norm_num)
    (by
      rw [show |(64739244643450875 : ℚ) / 2251799813685248| =
          64739244643450875 / 2251799813685248 from by norm_num]
      exact int_log2_eq (by norm_num) (by norm_num) (by norm_num))
    (by norm_num [Int.floor_eq_iff])
    (by norm_num)
  rw [h]
  norm_num

/-- The double nearest `125/150 = 5/6` lies just above it: the scaled
significand has fractional part `2/3`, so it rounds up. -/
theorem roundDouble_div_125_150 :
    roundDouble ((5 : ℚ) / 6) = 7505999378950827 / 9007199254740992 := by
  have h := roundDouble_eq_of_gt (q := (5 : ℚ) / 6) (z := -1) (m := 7505999378950826)
    (by norm_num)
    (by
      rw [show |(5 : ℚ) / 6| = 5 / 6 from by norm_num]
      exact int_log2_eq (by norm_num) (by norm_num) (by norm_num))
    (by norm_num [Int.floor_eq_iff])
    (by norm_num)
  rw [h]
  norm_num

/-- `double(5/6) * 100` rounds to the double `83.33333333333334…`. -/
theorem roundDouble_mul_125_150 :
    roundDouble ((187649984473770675 : ℚ) / 2251799813685248) =
      2932031007402667 / 35184372088832 := by
  have h := roundDouble_eq_of_gt
    (q := (187649984473770675 : ℚ) / 2251799813685248)
    (z := 6) (m := 5864062014805333)
    (by norm_num)
    (by
      rw [show |(187649984473770675 : ℚ) / 2251799813685248| =
          187649984473770675 / 2251799813685248 from by norm_num]
      exact int_log2_eq (by norm_num) (by norm_num) (by norm_num))
    (by norm_num [Int.floor_eq_iff])
    (by norm_num)
  rw [h]
  norm_num

/-- The program's output at originalWordCount 80, summaryWordCount 57: the
binary64 value of `(80-57)/80*100` is `28.749999999999996…`, and `toFixed(1)`
prints `"28.7"`. -/
theorem compressionRatioStr_80_57 : compressionRatioStr 80 57 = "28.7%" := by
  have h1 : jsSub (.fin ((80 : ℕ) : ℚ)) (.fin ((57 : ℕ) : ℚ)) = .fin 23 := by
    norm_num [jsSub, roundDouble_int_23]
  have h2 : jsDiv (.fin (23 : ℚ)) (.fin ((80 : ℕ) : ℚ)) =
      .fin (2589569785738035 / 9007199254740992) := by
    norm_num [jsDiv, roundDouble_div_23_80]
  have h3 : jsMul (.fin ((2589569785738035 : ℚ) / 9007199254740992)) (.fin 100) =
      .fin (8092405580431359 / 281474976710656) := by
    norm_num [jsMul, roundDouble_mul_23_80]
  have h4 : jsToFixed1 (.fin ((8092405580431359 : ℚ) / 281474976710656)) = "28.7" := by
    have hneg : ¬((8092405580431359 : ℚ) / 281474976710656 < 0) := by norm_num
    have hfl : ⌊(8092405580431359 : ℚ) / 281474976710656 * 10 + 1 / 2⌋ = 287 := by
      norm_num [Int.floor_eq_iff]
    simp only [jsToFixed1, fixed1, if_neg hneg]
    unfold fixed1Nonneg
    rw [hfl]
    rfl
  unfold compressionRatioStr
  rw [h1, h2, h3, h4]
  rfl

/-- The exact formula at 80, 57 is `28.75`, which `toFixed(1)` semantics round
up to `"28.8"`. -/
theorem specRatioStr_80_57 : specRatioStr 80 57 = "28.8%" := by
  have hq : (((80 : ℕ) : ℚ) - ((57 : ℕ) : ℚ)) / ((80 : ℕ) : ℚ) * 100 = 115 / 4 := by
    norm_num
  have hneg : ¬((115 : ℚ) / 4 < 0) := by norm_num
  have hfl : ⌊(115 : ℚ) / 4 * 10 + 1 / 2⌋ = 288 := by
    norm_num [Int.floor_eq_iff]
  unfold specRatioStr
  rw [hq]
  simp only [fixed1, if_neg hneg]
  unfold fixed1Nonneg
  rw [hfl]
  rfl

/-- The program's output at originalWordCount 150, summaryWordCount 25: the
binary64 value of `(150-25)/150*100` is `83.33333333333334…`, and `toFixed(1)`
prints `"83.3"`. -/
theorem compressionRatioStr_150_25 : compressionRatioStr 150 25 = "83.3%" := by
  have h1 : jsSub (.fin ((150 : ℕ) : ℚ)) (.fin ((25 : ℕ) : ℚ)) = .fin 125 := by
    norm_num [jsSub, roundDouble_int_125]
  have h2 : jsDiv (.fin (125 : ℚ)) (.fin ((150 : ℕ) : ℚ)) =
      .fin (7505999378950827 / 9007199254740992) := by
    norm_num [jsDiv, roundDouble_div_125_150]
  have h3 : jsMul (.fin ((7505999378950827 : ℚ) / 9007199254740992)) (.fin 100) =
      .fin (2932031007402667 / 35184372088832) := by
    norm_num [jsMul, roundDouble_mul_125_150]
  have h4 : jsToFixed1 (.fin ((2932031007402667 : ℚ) / 35184372088832)) = "83.3" := by
    have hneg : ¬((2932031007402667 : ℚ) / 35184372088832 < 0) := by norm_num
    have hfl : ⌊(2932031007402667 : ℚ) / 35184372088832 * 10 + 1 / 2⌋ = 833 := by
      norm_num [Int.floor_eq_iff]
    simp only [jsToFixed1, fixed1, if_neg hneg]
    unfold fixed1Nonneg
    rw [hfl]
    rfl
  unfold compressionRatioStr
  rw [h1, h2, h3, h4]
  rfl

/-- C4 counterexample: at originalWordCount 80 and summaryWordCount 57 — both
reachable — the program computes the formula in binary64, which falls just
below the `28.75` tie, and prints `"28.7%"`, while the claim's exact formula
formatted to one decimal is `"28.8%"`. -/
theorem c4_float_counterexample :
    compressionRatioStr 80 57 = "28.7%" ∧
    specRatioStr 80 57 = "28.8%" ∧
    compressionRatioStr 80 57 ≠ specRatioStr 80 57 := by
  refine ⟨compressionRatioStr_80_57, specRatioStr_80_57, ?_⟩
  rw [compressionRatioStr_80_57, specRatioStr_80_57]
  decide

/-- C4 amended: for originalWordCount > 0, the `compressionRatio` field is
((original − summary)/original × 100) evaluated in IEEE-754 double precision,
formatted to one decimal place with a trailing "%", and original=150,
summary=25 gives "83.3%". -/
theorem c4_compression_double :
    (∀ o s : Nat, 0 < o → compressionRatioStr o s = specRatioDoubleStr o s) ∧
    compressionRatioStr 150 25 = "83.3%" := by
  constructor
  · intro o s ho
    have hb : ((o : ℚ)) ≠ 0 := by positivity
    simp [compressionRatioStr, specRatioDoubleStr, jsSub, jsDiv, jsMul, jsToFixed1, hb]
  · exact compressionRatioStr_150_25

/-- Witness for C4 amended at original=150, summary=25. -/
theorem c4_compression_double_witness :
    0 < 150 ∧ compressionRatioStr 150 25 = specRatioDoubleStr 150 25 :=
  ⟨by decide, c4_compression_double.1 150 25 (by decide)⟩

/-- C1 (code bug): a request whose text is 200 space characters passes
validation yet has `originalWordCount = 0`, and the service then formats the
compression ratio as `"NaN%"` (empty summary) or `"-Infinity%"` (nonempty
summary) — a numeric fault propagated into the formatted string — not the
sentinel `"0.0%"` the spec's policy requires. -/
theorem c1_zero_wordcount_fault :
    countWords spacesText200 = 0 ∧
    validateSummarizeRequest ⟨.str spacesText200, none, none⟩ = [] ∧
    (summarizeRoute ⟨.str spacesText200, none, none⟩ (fun _ => .ok "") false).status = 200 ∧
    responseRatioStr (summarizeRoute ⟨.str spacesText200, none, none⟩
      (fun _ => .ok "") false) = some (compressionRatioStr 0 0) ∧
    compressionRatioStr 0 0 = "NaN%" ∧
    compressionRatioStr 0 3 = "-Infinity%" ∧
    ("NaN%" : String) ≠ "0.0%" := by
  have hw : countWords spacesText200 = 0 := by decide
  have hval : validateSummarizeRequest ⟨.str spacesText200, none, none⟩ = [] := by decide
  have hts : jsTrimStr "" = "" := rfl
  have hcw0 : countWords "" = 0 := rfl
  have hroute : summarizeRoute ⟨.str spacesText200, none, none⟩ (fun _ => .ok "") false =
      ⟨200, .success ⟨spacesText200, "", 0, 0, compressionRatioStr 0 0, "professional",
        "medium", "llama-3.3-70b-versatile"⟩, true⟩ := by
    simp [summarizeRoute, hval, hw, bodyText, hts, hcw0]
  have hnan : compressionRatioStr 0 0 = "NaN%" := by
    simp [compressionRatioStr, jsSub, jsDiv, jsMul, jsToFixed1, roundDouble_zero]
  have hninf : compressionRatioStr 0 3 = "-Infinity%" := by
    norm_num [compressionRatioStr, jsSub, jsDiv, jsMul, jsToFixed1,
      roundDouble_zero, roundDouble_neg3]
    rfl
  exact ⟨hw, hval, by rw [hroute], by rw [hroute]; rfl, hnan, hninf, by decide⟩

/-- C3 counterexample: with the default configuration (15-minute window, 100
requests), the 101st request at t = 600000 ms is rejected while 300 seconds
of the window remain, yet the configured denial's `retryAfter` is the
constant 900 — not the remaining window duration in seconds. -/
theorem c3_retry_after_counterexample :
    (limiterStep ⟨defaultWindowMs, defaultMaxRequests⟩
      (limiterRun ⟨defaultWindowMs, defaultMaxRequests⟩ ⟨0, 0⟩ (List.replicate 100 0))
      600000).2 = false ∧
    remainingWindowMs ⟨defaultWindowMs, defaultMaxRequests⟩
      (limiterRun ⟨defaultWindowMs, defaultMaxRequests⟩ ⟨0, 0⟩ (List.replicate 100 0))
      600000 = 300000 ∧
    (rateLimitMessage ⟨defaultWindowMs, defaultMaxRequests⟩).status = 429 ∧
    (rateLimitMessage ⟨defaultWindowMs, defaultMaxRequests⟩).retryAfter = 900 ∧
    (rateLimitMessage ⟨defaultWindowMs, defaultMaxRequests⟩).retryAfter ≠ 300000 / 1000 :=
  ⟨by decide, by decide, by decide, by decide, by decide⟩

/-- C3 amended: a rejected request receives the 429 denial whose `retryAfter`
is the constant `⌈windowMs / 1000⌉` — the full configured window length in
seconds, independent of the remaining window time; whenever the window is a
whole number of seconds (as the 15-minute default is), `retryAfter` equals,
and hence does not exceed, the configured window length in seconds. -/
theorem c3_retry_after_amended (cfg : LimiterConfig) (st : LimiterState) (now : Nat)
    (_hrej : (limiterStep cfg st now).2 = false) :
    (rateLimitMessage cfg).status = 429 ∧
    (rateLimitMessage cfg).retryAfter = (cfg.windowMs + 999) / 1000 ∧
    (1000 ∣ cfg.windowMs → (rateLimitMessage cfg).retryAfter * 1000 = cfg.windowMs) := by
  refine ⟨rfl, rfl, fun hdvd => ?_⟩
  obtain ⟨k, hk⟩ := hdvd
  simp [rateLimitMessage, limiterRetryAfter, hk]
  omega

/-- Witness for C3 amended: with `max = 0` every request is rejected at once;
the denial carries `retryAfter = 900`, and `900 * 1000` is exactly the
default window length. -/
theorem c3_retry_after_amended_witness :
    (limiterStep ⟨defaultWindowMs, 0⟩ ⟨0, 0⟩ 0).2 = false ∧
    (rateLimitMessage ⟨defaultWindowMs, 0⟩).status = 429 ∧
    (rateLimitMessage ⟨defaultWindowMs, 0⟩).retryAfter * 1000 = defaultWindowMs :=
  ⟨by decide,
    (c3_retry_after_amended ⟨defaultWindowMs, 0⟩ ⟨0, 0⟩ 0 (by decide)).1,
    (c3_retry_after_amended ⟨defaultWindowMs, 0⟩ ⟨0, 0⟩ 0 (by decide)).2.2
      ⟨900, by decide⟩⟩

/-- C5: whatever the underlying message and mode, a provider failure with
status 401 makes the summarize endpoint answer HTTP 500 with error
"Configuration error". -/
theorem c5_auth_error_500 (req : SummarizeRequest) (gw : String → GatewayResult)
    (devMode : Bool) (e : ProviderError)
    (hval : validateSummarizeRequest req = [])
    (hgw : ∀ p, gw p = .err e)
    (hstatus : e.status = some 401) :
    (summarizeRoute req gw devMode).status = 500 ∧
    (summarizeRoute req gw devMode).body =
      .failure "Configuration error" "API key is invalid or missing" none := by
  simp [summarizeRoute, handleSummarizeError, hval, hgw, hstatus]

/-- Witness for C5: a valid request, a gateway that throws status 401 with
some message, development mode on. -/
theorem c5_auth_error_500_witness :
    validateSummarizeRequest ⟨.str validText200, none, none⟩ = [] ∧
    (summarizeRoute ⟨.str validText200, none, none⟩
        (fun _ => .err ⟨some 401, some "Invalid API Key"⟩) true).status = 500 ∧
    (summarizeRoute ⟨.str validText200, none, none⟩
        (fun _ => .err ⟨some 401, some "Invalid API Key"⟩) true).body =
      .failure "Configuration error" "API key is invalid or missing" none :=
  ⟨by decide,
    (c5_auth_error_500 ⟨.str validText200, none, none⟩ _ true
      ⟨some 401, some "Invalid API Key"⟩ (by decide) (fun _ => rfl) rfl).1,
    (c5_auth_error_500 ⟨.str validText200, none, none⟩ _ true
      ⟨some 401, some "Invalid API Key"⟩ (by decide) (fun _ => rfl) rfl).2⟩

/-- C6: a provider failure with status 429 makes the summarize endpoint
answer HTTP 503 — never 500 and never 429. -/
theorem c6_provider_rate_limited_503 (req : SummarizeRequest)
    (gw : String → GatewayResult) (devMode : Bool) (e : ProviderError)
    (hval : validateSummarizeRequest req = [])
    (hgw : ∀ p, gw p = .err e)
    (hstatus : e.status = some 429) :
    (summarizeRoute req gw devMode).status = 503 ∧
    (summarizeRoute req gw devMode).status ≠ 500 ∧
    (summarizeRoute req gw devMode).status ≠ 429 := by
  have h : (summarizeRoute req gw devMode).status = 503 := by
    simp [summarizeRoute, handleSummarizeError, hval, hgw, hstatus]
  exact ⟨h, by rw [h]; decide, by rw [h]; decide⟩

/-- Witness for C6: a valid request and a gateway that throws status 429. -/
theorem c6_provider_rate_limited_503_witness :
    validateSummarizeRequest ⟨.str validText200, none, none⟩ = [] ∧
    (summarizeRoute ⟨.str validText200, none, none⟩
        (fun _ => .err ⟨some 429, some "Rate limit reached"⟩) false).status = 503 :=
  ⟨by decide,
    (c6_provider_rate_limited_503 ⟨.str validText200, none, none⟩ _ false
      ⟨some 429, some "Rate limit reached"⟩ (by decide) (fun _ => rfl) rfl).1⟩

/-- C10: the catch block checks status 429 before the 'context_length'
message test, so a provider error with status 429 whose message also contains
'context_length' is answered 503 (rate-limited), not 400 (text too long). -/
theorem c10_classification_priority (req : SummarizeRequest)
    (gw : String → GatewayResult) (devMode : Bool) (e : ProviderError) (m : String)
    (hval : validateSummarizeRequest req = [])
    (hgw : ∀ p, gw p = .err e)
    (hstatus : e.status = some 429)
    (_hmsg : e.message = some m)
    (_hctx : containsSubstr m "context_length" = true) :
    (summarizeRoute req gw devMode).status = 503 ∧
    (summarizeRoute req gw devMode).body =
      .failure "Service temporarily unavailable due to rate limits"
        "Please try again later" none ∧
    (summarizeRoute req gw devMode).status ≠ 400 := by
  have h : (summarizeRoute req gw devMode).status = 503 ∧
      (summarizeRoute req gw devMode).body =
        .failure "Service temporarily unavailable due to rate limits"
          "Please try again later" none := by
    simp [summarizeRoute, handleSummarizeError, hval, hgw, hstatus]
  exact ⟨h.1, h.2, by rw [h.1]; decide⟩

/-- Witness for C10: a gateway error with status 429 and a message containing
'context_length'. -/
theorem c10_classification_priority_witness :
    validateSummarizeRequest ⟨.str validText200, none, none⟩ = [] ∧
    containsSubstr "Request exceeds context_length limit" "context_length" = true ∧
    (summarizeRoute ⟨.str validText200, none, none⟩
        (fun _ => .err ⟨some 429, some "Request exceeds context_length limit"⟩)
        false).status = 503 :=
  ⟨by decide, by decide,
    (c10_classification_priority ⟨.str validText200, none, none⟩ _ false
      ⟨some 429, some "Request exceeds context_length limit"⟩
      "Request exceeds context_length limit"
      (by decide) (fun _ => rfl) rfl rfl (by decide)).1⟩

/-- C7: any payload violating the validation rules (text not a string, text
length out of [200, 10000], or tone/length present but outside their
enumerations) is answered 400 with error "Validation failed" carrying the
nonempty field-error list, and the gateway is never called. -/
theorem c7_validation_short_circuit (req : SummarizeRequest)
    (gw : String → GatewayResult) (devMode : Bool)
    (h : req.text = .missing ∨ req.text = .nonString ∨
      (∃ s, req.text = .str s ∧ (s.length < 200 ∨ s.length > 10000)) ∨
      (∃ t, req.tone = some t ∧
        ¬(t = "professional" ∨ t = "casual" ∨ t = "academic" ∨ t = "creative")) ∨
      (∃ l, req.length = some l ∧ ¬(l = "short" ∨ l = "medium" ∨ l = "long"))) :
    (summarizeRoute req gw devMode).status = 400 ∧
    (summarizeRoute req gw devMode).body =
      .validationFailed (validateSummarizeRequest req) ∧
    validateSummarizeRequest req ≠ [] ∧
    (summarizeRoute req gw devMode).gatewayCalled = false := by
  have hne : validateSummarizeRequest req ≠ [] := by
    unfold validateSummarizeRequest
    rcases h with h | h | ⟨s, hs, hb | hb⟩ | ⟨t, ht, hbad⟩ | ⟨l, hl, hbad⟩
    · simp [textFieldErrors, h]
    · simp [textFieldErrors, h]
    · simp [textFieldErrors, hs, hb]
    · simp [textFieldErrors, hs, hb]
    · simp [toneFieldErrors, ht, hbad]
    · simp [lengthFieldErrors, hl, hbad]
  have hfalse : (validateSummarizeRequest req).isEmpty = false := by
    rw [List.isEmpty_eq_false]
    exact hne
  refine ⟨?_, ?_, hne, ?_⟩ <;> simp [summarizeRoute, hfalse]

/-- Witness for C7: a text of 8 characters fails the 200-character minimum,
yields 400, a nonempty error list, and no gateway call. -/
theorem c7_validation_short_circuit_witness :
    ("tooshort" : String).length < 200 ∧
    (summarizeRoute ⟨.str "tooshort", none, none⟩ (fun _ => .ok "sum") false).status = 400 ∧
    validateSummarizeRequest ⟨.str "tooshort", none, none⟩ ≠ [] ∧
    (summarizeRoute ⟨.str "tooshort", none, none⟩
      (fun _ => .ok "sum") false).gatewayCalled = false :=
  ⟨by decide,
    (c7_validation_short_circuit ⟨.str "tooshort", none, none⟩ (fun _ => .ok "sum") false
      (Or.inr (Or.inr (Or.inl ⟨"tooshort", rfl, Or.inl (by decide)⟩)))).1,
    (c7_validation_short_circuit ⟨.str "tooshort", none, none⟩ (fun _ => .ok "sum") false
      (Or.inr (Or.inr (Or.inl ⟨"tooshort", rfl, Or.inl (by decide)⟩)))).2.2.1,
    (c7_validation_short_circuit ⟨.str "tooshort", none, none⟩ (fun _ => .ok "sum") false
      (Or.inr (Or.inr (Or.inl ⟨"tooshort", rfl, Or.inl (by decide)⟩)))).2.2.2⟩

/-- C9: a valid request (text length in [200, 10000]) omitting tone and
length is processed with the defaults "professional" and "medium"
(the prompt handed to the gateway is built from them) and the successful
response's settings echo those defaults. -/
theorem c9_default_settings (s : String) (gw : String → GatewayResult)
    (devMode : Bool) (content : String)
    (hmin : 200 ≤ s.length) (hmax : s.length ≤ 10000)
    (hgw : gw (buildPrompt s "professional" "medium") = .ok content) :
    (summarizeRoute ⟨.str s, none, none⟩ gw devMode).status = 200 ∧
    ∃ d, (summarizeRoute ⟨.str s, none, none⟩ gw devMode).body = .success d ∧
      d.settingsTone = "professional" ∧ d.settingsLength = "medium" := by
  have h1 : ¬(s.length < 200) := by omega
  have h2 : ¬(s.length > 10000) := by omega
  have hval : validateSummarizeRequest ⟨.str s, none, none⟩ = [] := by
    simp [validateSummarizeRequest, textFieldErrors, toneFieldErrors,
      lengthFieldErrors, h1, h2]
  refine ⟨?_, ?_⟩ <;> simp [summarizeRoute, hval, bodyText, hgw]

/-- Witness for C9: 200 `a`s with tone and length omitted and a healthy
gateway give a 200 response whose settings are the defaults. -/
theorem c9_default_settings_witness :
    200 ≤ validText200.length ∧ validText200.length ≤ 10000 ∧
    (summarizeRoute ⟨.str validText200, none, none⟩
      (fun _ => .ok "A concise summary.") false).status = 200 ∧
    ∃ d, (summarizeRoute ⟨.str validText200, none, none⟩
        (fun _ => .ok "A concise summary.") false).body = .success d ∧
      d.settingsTone = "professional" ∧ d.settingsLength = "medium" :=
  ⟨by decide, by decide,
    (c9_default_settings validText200 _ false "A concise summary."
      (by decide) (by decide) rfl).1,
    (c9_default_settings validText200 _ false "A concise summary."
      (by decide) (by decide) rfl).2⟩
